import Mathlib

/-!
Verification of the update-workflow handler
(src/src/tools/workflow/update.ts, class UpdateWorkflowHandler).

The handler body is a straight-line JavaScript function over dynamically
typed values.  We embed the JavaScript values the handler inspects as the
inductive type JSValue, with `Option JSValue` modelling a possibly
undefined value (`none` is `undefined`).  The request object and the
fetched workflow are embedded as structures of optional fields, the
remote API client as a pair of functions returning `Except`, and the
handler body as the function `execute`, which also returns the ordered
trace of remote calls it performed.
-/

namespace N8nUpdate

/-- A JavaScript runtime value as far as the handler inspects values:
null, booleans, numbers (modelled as integers; the handler never does
arithmetic), strings, arrays and plain objects.  `undefined` is modelled
separately as `none : Option JSValue`. -/
inductive JSValue where
  | null : JSValue
  | bool : Bool → JSValue
  | num : Int → JSValue
  | str : String → JSValue
  | arr : List JSValue → JSValue
  | obj : List (String × JSValue) → JSValue

/-- JavaScript truthiness of a possibly undefined value: undefined, null,
false, 0 and the empty string are falsy; every array and object is truthy. -/
def truthy : Option JSValue → Bool
  | none => false
  | some .null => false
  | some (.bool b) => b
  | some (.num n) => n != 0
  | some (.str s) => s != ""
  | some (.arr _) => true
  | some (.obj _) => true

/-- Array.isArray on a possibly undefined value. -/
def isArray : Option JSValue → Bool
  | some (.arr _) => true
  | _ => false

/-- Whether `typeof v === "object"` holds: true for null, arrays and
plain objects; false for booleans, numbers, strings and undefined. -/
def typeofIsObject : Option JSValue → Bool
  | some .null => true
  | some (.arr _) => true
  | some (.obj _) => true
  | _ => false

/-- JavaScript strict equality (`===`) between possibly undefined values,
as used in `name !== currentWorkflow.name`.  Primitives compare by value.
The two compared values always come from distinct sources (the request
object and the workflow fetched from the API), so two array or object
values are never the same reference and compare unequal. -/
def jsStrictEq : Option JSValue → Option JSValue → Bool
  | none, none => true
  | some .null, some .null => true
  | some (.bool a), some (.bool b) => a == b
  | some (.num a), some (.num b) => a == b
  | some (.str a), some (.str b) => a == b
  | _, _ => false

mutual

/-- JavaScript string coercion of a value, as performed by a template
literal `${v}`: arrays join their elements with commas (null elements
render empty), plain objects render as "[object Object]". -/
def JSValue.toDisplayString : JSValue → String
  | .null => "null"
  | .bool true => "true"
  | .bool false => "false"
  | .num n => toString n
  | .str s => s
  | .arr xs => String.intercalate "," (dispElems xs)
  | .obj _ => "[object Object]"

/-- Rendering of the elements of a JavaScript array for Array.toString. -/
def dispElems : List JSValue → List String
  | [] => []
  | v :: vs => (match v with
      | .null => ""
      | w => w.toDisplayString) :: dispElems vs

end

/-- Template-literal rendering of a possibly undefined value. -/
def jsDisplay : Option JSValue → String
  | none => "undefined"
  | some v => v.toDisplayString

/-- The destructured argument object of the update_workflow tool:
`const { workflowId, name, nodes, connections, settings, staticData } = args`.
Each field is `none` when the property is absent or explicitly undefined. -/
structure UpdateArgs where
  workflowId : Option JSValue
  name : Option JSValue
  nodes : Option JSValue
  connections : Option JSValue
  settings : Option JSValue
  staticData : Option JSValue

/-- A workflow as returned by the remote API.  The remote owns the shape;
the handler only reads these seven properties, each possibly undefined. -/
structure Workflow where
  id : Option JSValue
  name : Option JSValue
  active : Option JSValue
  nodes : Option JSValue
  connections : Option JSValue
  settings : Option JSValue
  staticData : Option JSValue

/-- The update payload `workflowData` built by the handler: a fresh object
holding only the five allowed fields, each possibly absent. -/
structure WorkflowData where
  name : Option JSValue
  nodes : Option JSValue
  connections : Option JSValue
  settings : Option JSValue
  staticData : Option JSValue

/-- One field of the update payload, translating the statement pair
`if (x !== undefined) d.f = x; else if (cur.f !== undefined) d.f = cur.f;`
(the field stays absent when both are undefined). -/
def mergeField (argField storedField : Option JSValue) : Option JSValue :=
  if argField.isSome then argField
  else if storedField.isSome then storedField
  else none

/-- The update payload built from the request and the fetched workflow
(update.ts lines 44 to 59). -/
def buildWorkflowData (args : UpdateArgs) (currentWorkflow : Workflow) : WorkflowData :=
  { name := mergeField args.name currentWorkflow.name
    nodes := mergeField args.nodes currentWorkflow.nodes
    connections := mergeField args.connections currentWorkflow.connections
    settings := mergeField args.settings currentWorkflow.settings
    staticData := mergeField args.staticData currentWorkflow.staticData }

/-- The entry pushed for a changed name.  The source template literal is
`name: "${currentWorkflow.name}" â†’ "${name}"` (the arrow appears in the
source file as the three characters â, U+2020, U+2019). -/
def nameChangeMsg (currentWorkflow : Workflow) (name : Option JSValue) : String :=
  "name: " ++ ("\"" ++ jsDisplay currentWorkflow.name ++ "\" â†’ \"" ++ jsDisplay name ++ "\"")

/-- The changesArray built by the handler (update.ts lines 68 to 74):
each entry is pushed under the written condition, in source order. -/
def changesArray (args : UpdateArgs) (currentWorkflow : Workflow) : List String :=
  (if args.name.isSome && !(jsStrictEq args.name currentWorkflow.name)
    then [nameChangeMsg currentWorkflow args.name] else []) ++
  (if args.nodes.isSome then ["nodes updated"] else []) ++
  (if args.connections.isSome then ["connections updated"] else []) ++
  (if args.settings.isSome then ["settings updated"] else []) ++
  (if args.staticData.isSome then ["staticData updated"] else [])

/-- The changesSummary string (update.ts lines 76 to 79). -/
def changesSummary (args : UpdateArgs) (currentWorkflow : Workflow) : String :=
  if (changesArray args currentWorkflow).length > 0
  then "Changes: " ++ String.intercalate ", " (changesArray args currentWorkflow)
  else "No changes were made"

/-- Modelled from the spec: the error kind thrown by the handler and by the
API collaborator.  Its definition (errors/index.js) is outside src; the spec
says it carries a human-readable message. -/
structure N8nApiError where
  message : String

/-- Modelled from the spec: the API client collaborator injected through the
base handler (outside src).  It exposes getWorkflow and updateWorkflow, both
of which may fail with a remote API error. -/
structure ApiService where
  getWorkflow : Option JSValue → Except N8nApiError Workflow
  updateWorkflow : Option JSValue → WorkflowData → Except N8nApiError Workflow

/-- One remote call performed by the handler, recorded with its arguments. -/
inductive ApiCall where
  | get : Option JSValue → ApiCall
  | update : Option JSValue → WorkflowData → ApiCall

/-- The data object passed to formatSuccess: exactly the id, name and
active flag of the workflow returned by the update call. -/
structure SuccessData where
  id : Option JSValue
  name : Option JSValue
  active : Option JSValue

/-- Modelled from the spec: handleExecution and formatSuccess live in the
base handler outside src.  Per the spec, a success carries the payload plus
the summary message, and every thrown error surfaces to the caller as a
structured failure, unchanged. -/
inductive ExecOutcome where
  | failure : N8nApiError → ExecOutcome
  | success : SuccessData → String → ExecOutcome

/-- The body of UpdateWorkflowHandler.execute, together with the ordered
trace of remote calls it performs.  A thrown N8nApiError is the failure
outcome; the trace records calls already issued at that point. -/
def execute (api : ApiService) (args : UpdateArgs) : ExecOutcome × List ApiCall :=
  if !(truthy args.workflowId) then
    (.failure ⟨"Missing required parameter: workflowId"⟩, [])
  else if truthy args.nodes && !(isArray args.nodes) then
    (.failure ⟨"Parameter \"nodes\" must be an array"⟩, [])
  else if truthy args.connections && !(typeofIsObject args.connections) then
    (.failure ⟨"Parameter \"connections\" must be an object"⟩, [])
  else
    match api.getWorkflow args.workflowId with
    | .error e => (.failure e, [.get args.workflowId])
    | .ok currentWorkflow =>
      let workflowData := buildWorkflowData args currentWorkflow
      match api.updateWorkflow args.workflowId workflowData with
      | .error e =>
        (.failure e, [.get args.workflowId, .update args.workflowId workflowData])
      | .ok updatedWorkflow =>
        (.success ⟨updatedWorkflow.id, updatedWorkflow.name, updatedWorkflow.active⟩
          ("Workflow updated successfully. " ++ changesSummary args currentWorkflow),
         [.get args.workflowId, .update args.workflowId workflowData])

/-- A request supplying no field at all. -/
def emptyArgs : UpdateArgs :=
  { workflowId := none, name := none, nodes := none
    connections := none, settings := none, staticData := none }

/-- A sample stored workflow used to instantiate the theorems. -/
def sampleWorkflow : Workflow :=
  { id := some (.str "wf-1"), name := some (.str "A"), active := some (.bool true)
    nodes := some (.arr [.obj [("type", .str "start")]])
    connections := some (.obj []), settings := some (.obj []), staticData := none }

/-- A sample API client whose two calls both succeed with sampleWorkflow. -/
def okApi : ApiService :=
  { getWorkflow := fun _ => .ok sampleWorkflow
    updateWorkflow := fun _ _ => .ok sampleWorkflow }

/-- A sample API client whose fetch fails. -/
def failFetchApi : ApiService :=
  { getWorkflow := fun _ => .error ⟨"connection refused"⟩
    updateWorkflow := fun _ _ => .ok sampleWorkflow }

/-- A request supplying only a truthy workflowId. -/
def wfOnlyArgs : UpdateArgs := { emptyArgs with workflowId := some (.str "wf-1") }

/-- A request supplying nodes as null. -/
def nullNodesArgs : UpdateArgs := { wfOnlyArgs with nodes := some .null }

/-- A request supplying nodes as a string. -/
def strNodesArgs : UpdateArgs := { wfOnlyArgs with nodes := some (.str "x") }

/-- A request supplying connections as the empty string. -/
def emptyStrConnArgs : UpdateArgs := { wfOnlyArgs with connections := some (.str "") }

/-- A request supplying connections as a number. -/
def numConnArgs : UpdateArgs := { wfOnlyArgs with connections := some (.num 5) }

/-- A request supplying only the name "A", equal to the stored sample name. -/
def sameNameArgs : UpdateArgs := { wfOnlyArgs with name := some (.str "A") }

/-- mergeField returns the argument field whenever it is present. -/
theorem mergeField_present (a s : Option JSValue) (h : a ≠ none) : mergeField a s = a := by
  cases a with
  | none => exact absurd rfl h
  | some v => simp [mergeField]

/-- mergeField returns the stored field, present or not, when the argument
field is absent. -/
theorem mergeField_absent (s : Option JSValue) : mergeField none s = s := by
  cases s <;> simp [mergeField]

/-- A string starting with "name: " differs from each of the four fixed
change entries. -/
theorem namePrefix_ne (t : String) :
    ("name: " ++ t ≠ "nodes updated") ∧ ("name: " ++ t ≠ "connections updated") ∧
    ("name: " ++ t ≠ "settings updated") ∧ ("name: " ++ t ≠ "staticData updated") := by
  refine ⟨?_, ?_, ?_, ?_⟩ <;>
    · intro h
      have h2 := congrArg String.data h
      rw [String.data_append] at h2
      simp [List.cons_append] at h2

/-- Membership in a conditional singleton list. -/
theorem mem_ite_singleton {α : Type} (x m : α) (c : Prop) [Decidable c] :
    (x ∈ if c then [m] else []) ↔ c ∧ x = m := by
  split <;> simp_all

/-- C1: for every request and every fetched current workflow, each of the
five payload fields equals the caller-supplied value when that field is
present in the request, otherwise it equals the fetched workflow field
(present or absent alike, so an absent stored field stays omitted); in
particular a request supplying none of the five fields yields a payload
equal to the stored workflow restricted to the five fields. -/
theorem C1_update_payload_merge (args : UpdateArgs) (cw : Workflow) :
    ((args.name ≠ none → (buildWorkflowData args cw).name = args.name) ∧
      (args.name = none → (buildWorkflowData args cw).name = cw.name)) ∧
    ((args.nodes ≠ none → (buildWorkflowData args cw).nodes = args.nodes) ∧
      (args.nodes = none → (buildWorkflowData args cw).nodes = cw.nodes)) ∧
    ((args.connections ≠ none → (buildWorkflowData args cw).connections = args.connections) ∧
      (args.connections = none → (buildWorkflowData args cw).connections = cw.connections)) ∧
    ((args.settings ≠ none → (buildWorkflowData args cw).settings = args.settings) ∧
      (args.settings = none → (buildWorkflowData args cw).settings = cw.settings)) ∧
    ((args.staticData ≠ none → (buildWorkflowData args cw).staticData = args.staticData) ∧
      (args.staticData = none → (buildWorkflowData args cw).staticData = cw.staticData)) ∧
    (args.name = none → args.nodes = none → args.connections = none →
      args.settings = none → args.staticData = none →
      buildWorkflowData args cw =
        { name := cw.name, nodes := cw.nodes, connections := cw.connections,
          settings := cw.settings, staticData := cw.staticData }) := by
  refine ⟨⟨fun h => mergeField_present _ _ h, fun h => ?_⟩,
          ⟨fun h => mergeField_present _ _ h, fun h => ?_⟩,
          ⟨fun h => mergeField_present _ _ h, fun h => ?_⟩,
          ⟨fun h => mergeField_present _ _ h, fun h => ?_⟩,
          ⟨fun h => mergeField_present _ _ h, fun h => ?_⟩,
          fun h1 h2 h3 h4 h5 => ?_⟩
  all_goals simp_all [buildWorkflowData, mergeField_absent]

/-- C1 witness: with name supplied the payload takes the supplied name,
and with an empty request the payload equals the stored five fields. -/
theorem C1_update_payload_merge_witness :
    (buildWorkflowData { emptyArgs with name := some (.str "B") } sampleWorkflow).name =
      some (.str "B") ∧
    buildWorkflowData emptyArgs sampleWorkflow =
      { name := sampleWorkflow.name, nodes := sampleWorkflow.nodes,
        connections := sampleWorkflow.connections, settings := sampleWorkflow.settings,
        staticData := sampleWorkflow.staticData } :=
  ⟨(C1_update_payload_merge { emptyArgs with name := some (.str "B") } sampleWorkflow).1.1
      (by simp [emptyArgs]),
   (C1_update_payload_merge emptyArgs sampleWorkflow).2.2.2.2.2 rfl rfl rfl rfl rfl⟩

/-- C2: the change summary contains the rendered old-to-new name entry
exactly when name was supplied and is strictly unequal to the stored name;
it contains "nodes updated", "connections updated", "settings updated",
"staticData updated" exactly when the corresponding field was supplied,
regardless of its value; and when none of the five fields was supplied the
summary text is "No changes were made". -/
theorem C2_change_summary (args : UpdateArgs) (cw : Workflow) :
    ((nameChangeMsg cw args.name ∈ changesArray args cw) ↔
      (args.name ≠ none ∧ jsStrictEq args.name cw.name = false)) ∧
    (("nodes updated" ∈ changesArray args cw) ↔ args.nodes ≠ none) ∧
    (("connections updated" ∈ changesArray args cw) ↔ args.connections ≠ none) ∧
    (("settings updated" ∈ changesArray args cw) ↔ args.settings ≠ none) ∧
    (("staticData updated" ∈ changesArray args cw) ↔ args.staticData ≠ none) ∧
    (args.name = none → args.nodes = none → args.connections = none →
      args.settings = none → args.staticData = none →
      changesSummary args cw = "No changes were made") := by
  have hne := namePrefix_ne ("\"" ++ jsDisplay cw.name ++ "\" â†’ \"" ++ jsDisplay args.name ++ "\"")
  have hmsg : nameChangeMsg cw args.name =
      "name: " ++ ("\"" ++ jsDisplay cw.name ++ "\" â†’ \"" ++ jsDisplay args.name ++ "\"") := rfl
  have e1 : nameChangeMsg cw args.name ≠ "nodes updated" := hmsg ▸ hne.1
  have e2 : nameChangeMsg cw args.name ≠ "connections updated" := hmsg ▸ hne.2.1
  have e3 : nameChangeMsg cw args.name ≠ "settings updated" := hmsg ▸ hne.2.2.1
  have e4 : nameChangeMsg cw args.name ≠ "staticData updated" := hmsg ▸ hne.2.2.2
  refine ⟨?_, ?_, ?_, ?_, ?_, fun h1 h2 h3 h4 h5 => ?_⟩
  · simp [changesArray, mem_ite_singleton, e1, e2, e3, e4,
      Option.ne_none_iff_isSome]
  · simp [changesArray, mem_ite_singleton, Ne.symm e1, Option.ne_none_iff_isSome]
  · simp [changesArray, mem_ite_singleton, Ne.symm e2, Option.ne_none_iff_isSome]
  · simp [changesArray, mem_ite_singleton, Ne.symm e3, Option.ne_none_iff_isSome]
  · simp [changesArray, mem_ite_singleton, Ne.symm e4, Option.ne_none_iff_isSome]
  · simp [changesSummary, changesArray, h1, h2, h3, h4, h5]

/-- C2 witness: the empty request produces the no-changes summary, and a
request supplying nodes puts "nodes updated" in the changes array. -/
theorem C2_change_summary_witness :
    changesSummary emptyArgs sampleWorkflow = "No changes were made" ∧
    ("nodes updated" ∈ changesArray { emptyArgs with nodes := some (.arr []) } sampleWorkflow) :=
  ⟨(C2_change_summary emptyArgs sampleWorkflow).2.2.2.2.2 rfl rfl rfl rfl rfl,
   ((C2_change_summary { emptyArgs with nodes := some (.arr []) } sampleWorkflow).2.1).2
     (by simp [emptyArgs])⟩

/-- C3: a request with no workflowId fails with the missing-parameter
validation error and performs no remote call. -/
theorem C3_missing_workflowId (api : ApiService) (args : UpdateArgs)
    (h : args.workflowId = none) :
    execute api args = (.failure ⟨"Missing required parameter: workflowId"⟩, []) := by
  simp [execute, h, truthy]

/-- C3 witness at the empty request. -/
theorem C3_missing_workflowId_witness :
    execute okApi emptyArgs = (.failure ⟨"Missing required parameter: workflowId"⟩, []) :=
  C3_missing_workflowId okApi emptyArgs rfl

/-- C4 counterexample: a request whose nodes field is present as null is
present and not an array, yet the operation does not fail validation: it
performs both remote calls and succeeds. -/
theorem C4_counterexample :
    nullNodesArgs.nodes = some JSValue.null ∧
    isArray nullNodesArgs.nodes = false ∧
    execute okApi nullNodesArgs =
      (.success ⟨sampleWorkflow.id, sampleWorkflow.name, sampleWorkflow.active⟩
        "Workflow updated successfully. Changes: nodes updated",
       [.get (some (.str "wf-1")),
        .update (some (.str "wf-1")) (buildWorkflowData nullNodesArgs sampleWorkflow)]) :=
  ⟨rfl, rfl, rfl⟩

/-- C4 amended: a request whose nodes field holds a truthy value that is
not an array fails with a validation error (the nodes message, or the
missing-workflowId message when the identifier check fails first) and
performs no remote call; a falsy nodes value bypasses the check. -/
theorem C4_nodes_validation (api : ApiService) (args : UpdateArgs)
    (h1 : truthy args.nodes = true) (h2 : isArray args.nodes = false) :
    (execute api args).2 = [] ∧
    ((execute api args).1 = .failure ⟨"Parameter \"nodes\" must be an array"⟩ ∨
     (execute api args).1 = .failure ⟨"Missing required parameter: workflowId"⟩) := by
  cases hw : truthy args.workflowId <;> simp [execute, hw, h1, h2]

/-- C4 amended witness: a string value for nodes is rejected. -/
theorem C4_nodes_validation_witness :
    (execute okApi strNodesArgs).2 = [] ∧
    ((execute okApi strNodesArgs).1 = .failure ⟨"Parameter \"nodes\" must be an array"⟩ ∨
     (execute okApi strNodesArgs).1 = .failure ⟨"Missing required parameter: workflowId"⟩) :=
  C4_nodes_validation okApi strNodesArgs rfl rfl

/-- C5 counterexample: a request whose connections field is present as the
empty string is present and not a key-value mapping, yet the operation does
not fail validation: it performs both remote calls and succeeds. -/
theorem C5_counterexample :
    emptyStrConnArgs.connections = some (JSValue.str "") ∧
    typeofIsObject emptyStrConnArgs.connections = false ∧
    execute okApi emptyStrConnArgs =
      (.success ⟨sampleWorkflow.id, sampleWorkflow.name, sampleWorkflow.active⟩
        "Workflow updated successfully. Changes: connections updated",
       [.get (some (.str "wf-1")),
        .update (some (.str "wf-1")) (buildWorkflowData emptyStrConnArgs sampleWorkflow)]) :=
  ⟨rfl, rfl, rfl⟩

/-- C5 amended: a request whose connections field holds a truthy value
whose JavaScript typeof is not object fails with a validation error (the
connections message, or an earlier validation message when an earlier check
fails first) and performs no remote call; falsy values, and truthy values
of typeof object such as arrays, bypass the check. -/
theorem C5_connections_validation (api : ApiService) (args : UpdateArgs)
    (h1 : truthy args.connections = true) (h2 : typeofIsObject args.connections = false) :
    (execute api args).2 = [] ∧
    ((execute api args).1 = .failure ⟨"Parameter \"connections\" must be an object"⟩ ∨
     (execute api args).1 = .failure ⟨"Parameter \"nodes\" must be an array"⟩ ∨
     (execute api args).1 = .failure ⟨"Missing required parameter: workflowId"⟩) := by
  cases hw : truthy args.workflowId <;>
    cases hn : truthy args.nodes && !(isArray args.nodes) <;>
      simp [execute, hw, hn, h1, h2]

/-- C5 amended witness: a number value for connections is rejected. -/
theorem C5_connections_validation_witness :
    (execute okApi numConnArgs).2 = [] ∧
    ((execute okApi numConnArgs).1 = .failure ⟨"Parameter \"connections\" must be an object"⟩ ∨
     (execute okApi numConnArgs).1 = .failure ⟨"Parameter \"nodes\" must be an array"⟩ ∨
     (execute okApi numConnArgs).1 = .failure ⟨"Missing required parameter: workflowId"⟩) :=
  C5_connections_validation okApi numConnArgs rfl rfl

/-- C6: when validation passes and the fetch of the current workflow fails,
the failure propagates unchanged as the outcome and the only remote call
made is the fetch: no update call occurs. -/
theorem C6_fetch_failure_propagates (api : ApiService) (args : UpdateArgs) (e : N8nApiError)
    (hw : truthy args.workflowId = true)
    (hn : (truthy args.nodes && !(isArray args.nodes)) = false)
    (hc : (truthy args.connections && !(typeofIsObject args.connections)) = false)
    (hf : api.getWorkflow args.workflowId = .error e) :
    execute api args = (.failure e, [ApiCall.get args.workflowId]) := by
  simp [execute, hw, hn, hc, hf]

/-- C6 witness with a failing fetch client. -/
theorem C6_fetch_failure_propagates_witness :
    execute failFetchApi wfOnlyArgs =
      (.failure ⟨"connection refused"⟩, [ApiCall.get (some (.str "wf-1"))]) :=
  C6_fetch_failure_propagates failFetchApi wfOnlyArgs ⟨"connection refused"⟩ rfl rfl rfl rfl

/-- C7: when validation passes and both remote calls succeed, the outcome
is a success carrying exactly the updated workflow id, name and active
flag, together with the change summary message, and the trace is the fetch
followed by the update with the merged payload. -/
theorem C7_success_result (api : ApiService) (args : UpdateArgs) (cw uw : Workflow)
    (hw : truthy args.workflowId = true)
    (hn : (truthy args.nodes && !(isArray args.nodes)) = false)
    (hc : (truthy args.connections && !(typeofIsObject args.connections)) = false)
    (hget : api.getWorkflow args.workflowId = .ok cw)
    (hupd : api.updateWorkflow args.workflowId (buildWorkflowData args cw) = .ok uw) :
    execute api args =
      (.success ⟨uw.id, uw.name, uw.active⟩
        ("Workflow updated successfully. " ++ changesSummary args cw),
       [.get args.workflowId, .update args.workflowId (buildWorkflowData args cw)]) := by
  simp [execute, hw, hn, hc, hget, hupd]

/-- C7 witness with the all-success client and an empty update request. -/
theorem C7_success_result_witness :
    execute okApi wfOnlyArgs =
      (.success ⟨sampleWorkflow.id, sampleWorkflow.name, sampleWorkflow.active⟩
        ("Workflow updated successfully. " ++ changesSummary wfOnlyArgs sampleWorkflow),
       [.get (some (.str "wf-1")),
        .update (some (.str "wf-1")) (buildWorkflowData wfOnlyArgs sampleWorkflow)]) :=
  C7_success_result okApi wfOnlyArgs sampleWorkflow sampleWorkflow rfl rfl rfl rfl rfl

/-- C9: a null value supplied for nodes, connections, settings or
staticData passes the shape checks (its condition evaluates to false),
lands in the update payload in place of the stored value, and adds the
corresponding updated entry to the changes array. -/
theorem C9_null_field_counts_as_present (args : UpdateArgs) (cw : Workflow) :
    (args.nodes = some JSValue.null →
      (truthy args.nodes && !(isArray args.nodes)) = false ∧
      (buildWorkflowData args cw).nodes = some JSValue.null ∧
      "nodes updated" ∈ changesArray args cw) ∧
    (args.connections = some JSValue.null →
      (truthy args.connections && !(typeofIsObject args.connections)) = false ∧
      (buildWorkflowData args cw).connections = some JSValue.null ∧
      "connections updated" ∈ changesArray args cw) ∧
    (args.settings = some JSValue.null →
      (buildWorkflowData args cw).settings = some JSValue.null ∧
      "settings updated" ∈ changesArray args cw) ∧
    (args.staticData = some JSValue.null →
      (buildWorkflowData args cw).staticData = some JSValue.null ∧
      "staticData updated" ∈ changesArray args cw) := by
  refine ⟨fun h => ?_, fun h => ?_, fun h => ?_, fun h => ?_⟩ <;>
    simp [h, truthy, isArray, typeofIsObject, buildWorkflowData, mergeField,
      changesArray, mem_ite_singleton, List.mem_append]

/-- C9 witness at a request whose nodes field is null. -/
theorem C9_null_field_counts_as_present_witness :
    (truthy nullNodesArgs.nodes && !(isArray nullNodesArgs.nodes)) = false ∧
    (buildWorkflowData nullNodesArgs sampleWorkflow).nodes = some JSValue.null ∧
    "nodes updated" ∈ changesArray nullNodesArgs sampleWorkflow :=
  (C9_null_field_counts_as_present nullNodesArgs sampleWorkflow).1 rfl

/-- C10: when the only supplied field is a name strictly equal to the
stored name, the summary is "No changes were made", yet the update call is
still performed and its payload carries that name. -/
theorem C10_same_name_still_updates (api : ApiService) (args : UpdateArgs) (cw : Workflow)
    (n : JSValue)
    (hw : truthy args.workflowId = true)
    (hname : args.name = some n)
    (heq : jsStrictEq args.name cw.name = true)
    (hnodes : args.nodes = none) (hconn : args.connections = none)
    (hset : args.settings = none) (hsd : args.staticData = none)
    (hget : api.getWorkflow args.workflowId = .ok cw) :
    changesSummary args cw = "No changes were made" ∧
    (buildWorkflowData args cw).name = some n ∧
    ApiCall.update args.workflowId (buildWorkflowData args cw) ∈ (execute api args).2 := by
  have hn : (truthy args.nodes && !(isArray args.nodes)) = false := by simp [hnodes, truthy]
  have hc : (truthy args.connections && !(typeofIsObject args.connections)) = false := by
    simp [hconn, truthy]
  refine ⟨?_, ?_, ?_⟩
  · simp [changesSummary, changesArray, heq, hnodes, hconn, hset, hsd]
  · simp [buildWorkflowData, hname, mergeField]
  · cases hu : api.updateWorkflow args.workflowId (buildWorkflowData args cw) with
    | error e => simp [execute, hw, hn, hc, hget, hu]
    | ok uw => simp [execute, hw, hn, hc, hget, hu]

/-- C10 witness: supplying the stored name "A" only. -/
theorem C10_same_name_still_updates_witness :
    changesSummary sameNameArgs sampleWorkflow = "No changes were made" ∧
    (buildWorkflowData sameNameArgs sampleWorkflow).name = some (.str "A") ∧
    ApiCall.update sameNameArgs.workflowId (buildWorkflowData sameNameArgs sampleWorkflow) ∈
      (execute okApi sameNameArgs).2 :=
  C10_same_name_still_updates okApi sameNameArgs sampleWorkflow (.str "A")
    rfl rfl rfl rfl rfl rfl rfl rfl

/-- C8: a request whose workflowId is present but falsy (the empty string,
null, false or 0) fails with the same missing-parameter validation error
and performs no remote call, even though the field is not absent. -/
theorem C8_falsy_workflowId (api : ApiService) (args : UpdateArgs) (v : JSValue)
    (_hp : args.workflowId = some v) (hf : truthy args.workflowId = false) :
    execute api args = (.failure ⟨"Missing required parameter: workflowId"⟩, []) := by
  simp [execute, hf]

/-- C8 witness: workflowId present as the empty string. -/
theorem C8_falsy_workflowId_witness :
    execute okApi { emptyArgs with workflowId := some (.str "") } =
      (.failure ⟨"Missing required parameter: workflowId"⟩, []) :=
  C8_falsy_workflowId okApi { emptyArgs with workflowId := some (.str "") } (.str "") rfl rfl

end N8nUpdate
